import Mathlib

/-!
# Verification of `portfolio_monte_carlo.py`

A shallow embedding of the Monte Carlo portfolio simulator in
`src/portfolio_monte_carlo.py`, together with theorems settling the
specification's claims about it.

Modelling choices:
* Python floats are modelled by exact rationals `ℚ`.
* The pseudo-random source behind `random.choice` is abstracted as a *draw
  oracle*: a function supplying a natural number per (trial, year, asset
  position); `random.choice pool` is embedded as indexing the pool at the
  oracle's value modulo the pool length, and raising Python's `IndexError`
  on an empty pool, matching `random.choice([])`.
* Fallible code returns `Except PyErr`; `PyErr` names the Python exceptions
  the source can actually raise at the modelled program points.
* A portfolio (the Python dict `{asset: weight}` together with the
  precomputed `yearly_returns` dict) is a list of (weight, return-pool)
  pairs in the dict's iteration (insertion) order.
-/

set_option autoImplicit false

namespace PortfolioMC

/-- The Python exceptions the embedded code can raise:
`IndexError` (from `[].pop(0)` and `random.choice([])`),
`TypeError` (from comparing `None` with a float), and
`ZeroDivisionError` (from `count / len(growth_data)` with empty data). -/
inductive PyErr : Type
  | indexError
  | typeError
  | zeroDivisionError
  deriving DecidableEq, Repr

/-- The spec's name `InvalidRangeError` denotes the exception the code raises
for a boundless range query: the `TypeError` from evaluating
`min_growth_pct < growth` with `min_growth_pct = None` (line 137). -/
def InvalidRangeError : PyErr := PyErr.typeError

/-- The spec's name `EmptyDistributionError` denotes the exception the code
raises on a zero-trial distribution: the `ZeroDivisionError` from
`count / len(growth_data)` (line 140). -/
def EmptyDistributionError : PyErr := PyErr.zeroDivisionError

/-- The spec's name `EmptyReturnPoolError` denotes the exception the code
raises on an empty return pool: the `IndexError` from
`random.choice(yearly_returns[asset.ticker])` (line 165). -/
def EmptyReturnPoolError : PyErr := PyErr.indexError

/-- The spec's name `InsufficientDataError` denotes the exception the code
raises when an asset has no usable price history: the `IndexError` from
`data.pop(0)` on an empty list (line 96). -/
def InsufficientDataError : PyErr := PyErr.indexError

/-! ## ReturnSeriesBuilder: `get_yearly_returns` (lines 87-98)

`asset.history('max').Close.resample('Y').ffill().pct_change()` produces one
entry per year-end price: a leading NaN followed by the fractional change of
each adjacent pair.  `data.pop(0)` removes the leading NaN and raises
`IndexError` when the series is empty (zero price points).  We embed the
function on the list of year-end prices the external data provider yields. -/

/-- The tail of pandas' `pct_change`: given the previous price and the
remaining prices, the fractional return of each adjacent pair, in order. -/
def pct_changes (prev : ℚ) : List ℚ → List ℚ
  | [] => []
  | p :: rest => (p - prev) / prev :: pct_changes p rest

/-- Embedding of `get_yearly_returns` on the year-end price series: `pct_change` yields
`NaN :: pct_changes p ps` for prices `p :: ps` and `[]` for no prices;
`data.pop(0)` drops the NaN, raising `IndexError` on the empty list. -/
def get_yearly_returns (prices : List ℚ) : Except PyErr (List ℚ) :=
  match prices with
  | [] => Except.error PyErr.indexError
  | p :: rest => Except.ok (pct_changes p rest)

/-! ## StatisticsReporter: `growth_probability` (lines 100-140) -/

/-- Embedding of `growth_probability(growth_data, min_growth_pct, max_growth_pct)`.
The `if/elif/else` dispatch on `== None` sends (none, some) to the
`growth < max` loop, (some, none) to the `growth > min` loop, and both
(some, some) and (none, none) to the `min < growth < max` loop; in the
last case a `none` bound makes Python's chained comparison raise
`TypeError` at the first element, and `count / len(growth_data)` raises
`ZeroDivisionError` on empty data. -/
def growth_probability (growth_data : List ℚ) (min_growth_pct max_growth_pct : Option ℚ) :
    Except PyErr ℚ :=
  match min_growth_pct, max_growth_pct with
  | none, some mx =>
      if growth_data.length = 0 then Except.error PyErr.zeroDivisionError
      else Except.ok ((growth_data.countP (fun g => decide (g < mx)) : ℚ)
        / (growth_data.length : ℚ) * 100)
  | some mn, none =>
      if growth_data.length = 0 then Except.error PyErr.zeroDivisionError
      else Except.ok ((growth_data.countP (fun g => decide (mn < g)) : ℚ)
        / (growth_data.length : ℚ) * 100)
  | some mn, some mx =>
      if growth_data.length = 0 then Except.error PyErr.zeroDivisionError
      else Except.ok ((growth_data.countP (fun g => decide (mn < g ∧ g < mx)) : ℚ)
        / (growth_data.length : ℚ) * 100)
  | none, none =>
      match growth_data with
      | [] => Except.error PyErr.zeroDivisionError
      | _ :: _ => Except.error PyErr.typeError

/-! ## SimulationEngine (lines 143-171)

A portfolio is `List (ℚ × List ℚ)`: per asset, its weight and its return
pool `yearly_returns[asset.ticker]`, in dict iteration order. -/

/-- Embedding of `random.choice(pool)` with the oracle value `k`: raises `IndexError`
on an empty pool, otherwise selects the element at index `k % pool.length`
(the oracle ranges over all of `ℕ`, so every index is reachable). -/
def choice (pool : List ℚ) (k : ℕ) : Except PyErr ℚ :=
  match pool with
  | [] => Except.error PyErr.indexError
  | _ :: _ => Except.ok (pool.getD (k % pool.length) 0)

/-- The year-0 pass of the asset loop: starting from `portfolio_value = 0`,
each asset executes `portfolio_value += INITIAL_INVESTMENT * weight`
(line 162); `value_to_add` stays 0. -/
def yearZeroValue (init : ℚ) (portfolio : List (ℚ × List ℚ)) : ℚ :=
  portfolio.foldl (fun v a => v + init * a.1) 0

/-- The asset loop of a simulated year `y ≥ 1` (lines 158-166): for the asset
at position `i`, `asset_value = portfolio_value * weight` (rebalancing),
one return is drawn by `random.choice`, and `value_to_add` accumulates
`asset_value * random_return`.  `v` is the portfolio value at the start of
the year (unchanged during the loop), `f i` the draw oracle's value for
asset position `i`, `acc` the running `value_to_add`. -/
def yearDeltaAux (v : ℚ) (f : ℕ → ℕ) : List (ℚ × List ℚ) → ℕ → ℚ → Except PyErr ℚ
  | [], _, acc => Except.ok acc
  | (w, pool) :: rest, i, acc =>
    match choice pool (f i) with
    | Except.error e => Except.error e
    | Except.ok r => yearDeltaAux v f rest (i + 1) (acc + v * w * r)

/-- The `value_to_add` computed by one simulated year `y ≥ 1`. -/
def yearDelta (v : ℚ) (portfolio : List (ℚ × List ℚ)) (f : ℕ → ℕ) : Except PyErr ℚ :=
  yearDeltaAux v f portfolio 0 0

/-- The returns the asset loop draws in one year when no pool is empty:
for the asset at position `i`, the pool element at index `f i % length`. -/
def drawnReturns (f : ℕ → ℕ) : List (ℚ × List ℚ) → ℕ → List ℚ
  | [], _ => []
  | (_, pool) :: rest, i => pool.getD (f i % pool.length) 0 :: drawnReturns f rest (i + 1)

/-- Years `y, y+1, ...` of one trial, `n` of them remaining: each year adds
`yearDelta` to the portfolio value and appends the new value to the
trajectory (lines 168-169). `f y i` is the oracle value for year `y`,
asset position `i`. -/
def simFrom (portfolio : List (ℚ × List ℚ)) (f : ℕ → ℕ → ℕ) :
    ℕ → ℚ → ℕ → Except PyErr (List ℚ)
  | _, _, 0 => Except.ok []
  | y, v, n + 1 =>
    match yearDelta v portfolio (f y) with
    | Except.error e => Except.error e
    | Except.ok d =>
      match simFrom portfolio f (y + 1) (v + d) n with
      | Except.error e => Except.error e
      | Except.ok rest => Except.ok ((v + d) :: rest)

/-- One trial (lines 152-169): year 0 initializes the portfolio value to
`yearZeroValue` and appends it; years `1..years` each append the updated
value.  The trajectory has one entry per year index `0..years`. -/
def runTrial (init : ℚ) (portfolio : List (ℚ × List ℚ)) (years : ℕ) (f : ℕ → ℕ → ℕ) :
    Except PyErr (List ℚ) :=
  match simFrom portfolio f 1 (yearZeroValue init portfolio) years with
  | Except.error e => Except.error e
  | Except.ok rest => Except.ok (yearZeroValue init portfolio :: rest)

/-- The trial loop (lines 149-171), accumulating completed trajectories into
`data`.  On an exception the module-level `data` list still holds the
trajectories of the trials completed so far, so an error carries the
partial matrix observable at failure.  `g t y i` is the oracle value for
trial `t`, year `y`, asset position `i`. -/
def runSimAux (init : ℚ) (portfolio : List (ℚ × List ℚ)) (years : ℕ) (g : ℕ → ℕ → ℕ → ℕ) :
    ℕ → ℕ → List (List ℚ) → Except (PyErr × List (List ℚ)) (List (List ℚ))
  | _, 0, acc => Except.ok acc
  | t, n + 1, acc =>
    match runTrial init portfolio years (g t) with
    | Except.error e => Except.error (e, acc)
    | Except.ok traj => runSimAux init portfolio years g (t + 1) n (acc ++ [traj])

/-- The whole simulation: `trials` trials, yielding the trial matrix `data`,
or on failure the exception together with the partial matrix observable
at that point. -/
def runSim (init : ℚ) (portfolio : List (ℚ × List ℚ)) (years trials : ℕ)
    (g : ℕ → ℕ → ℕ → ℕ) : Except (PyErr × List (List ℚ)) (List (List ℚ)) :=
  runSimAux init portfolio years g 0 trials []

/-! ## Reporting (lines 82-83, 190, 204) -/

/-- Embedding of `final_growths` (line 190): `sim_data[-1] / INITIAL_INVESTMENT * 100 - 100`
for each trajectory.  Trajectories produced by the engine are non-empty
(length `years + 1`), so `[-1]` is their last element. -/
def final_growths (data : List (List ℚ)) (init : ℚ) : List ℚ :=
  data.map (fun sim_data => sim_data.getLastD 0 / init * 100 - 100)

/-- Embedding of `benchmark_future_value` (lines 82-83):
`INITIAL_INVESTMENT * (1 + BENCHMARK_ANNUAL_RETURN) ** YEARS_TO_SIMULATE`. -/
def benchmark_future_value (init annual_return : ℚ) (years : ℕ) : ℚ :=
  init * (1 + annual_return) ^ years

/-- Embedding of `outperformance_probability` (line 204):
`growth_probability(final_growths, benchmark_future_value, None)`. -/
def outperformance_probability (growth_data : List ℚ) (init annual_return : ℚ)
    (years : ℕ) : Except PyErr ℚ :=
  growth_probability growth_data (some (benchmark_future_value init annual_return years)) none

/-! ## Helper lemmas -/

lemma length_ne_zero {l : List ℚ} (h : l ≠ []) : ¬ l.length = 0 :=
  fun hl => h (List.length_eq_zero.mp hl)

lemma pct_changes_zipWith : ∀ (ps : List ℚ) (p : ℚ),
    pct_changes p ps = List.zipWith (fun prev cur => (cur - prev) / prev) (p :: ps) ps
  | [], _ => rfl
  | q :: rest, p => by
    simp [pct_changes, pct_changes_zipWith rest q]

lemma countP_lt_gt_eq (gd : List ℚ) (x : ℚ) :
    gd.countP (fun g => decide (g < x)) + gd.countP (fun g => decide (x < g))
      + gd.countP (fun g => decide (g = x)) = gd.length := by
  induction gd with
  | nil => simp
  | cons a l ih =>
    rw [List.countP_cons, List.countP_cons, List.countP_cons, List.length_cons]
    rcases lt_trichotomy a x with hc | hc | hc
    · have h1 : (fun g => decide (g < x)) a = true := by simpa using hc
      have h2 : ¬ ((fun g => decide (x < g)) a = true) := by simpa using hc.asymm
      have h3 : ¬ ((fun g => decide (g = x)) a = true) := by simpa using hc.ne
      rw [if_pos h1, if_neg h2, if_neg h3]
      omega
    · subst hc
      have h1 : ¬ ((fun g => decide (g < a)) a = true) := by simp
      have h3 : decide (a = a) = true := by simp
      rw [if_neg h1, if_pos h3]
      omega
    · have h1 : ¬ ((fun g => decide (g < x)) a = true) := by simpa using hc.asymm
      have h2 : (fun g => decide (x < g)) a = true := by simpa using hc
      have h3 : ¬ ((fun g => decide (g = x)) a = true) := by simpa using hc.ne'
      rw [if_neg h1, if_pos h2, if_neg h3]
      omega

/-! ## Claim theorems: StatisticsReporter -/

/-- C5: for every non-empty growth distribution and bounds, `growth_probability`
returns `count / trials * 100` with the count determined by the mode that the
present bounds select: both present counts elements strictly between the
bounds; only the max bound counts elements strictly below it; only the min
bound counts elements strictly above it. -/
theorem growth_probability_modes (gd : List ℚ) (mn mx : ℚ) (h : gd ≠ []) :
    growth_probability gd (some mn) (some mx)
        = Except.ok (((gd.filter (fun g => decide (mn < g ∧ g < mx))).length : ℚ)
            / (gd.length : ℚ) * 100)
  ∧ growth_probability gd none (some mx)
        = Except.ok (((gd.filter (fun g => decide (g < mx))).length : ℚ)
            / (gd.length : ℚ) * 100)
  ∧ growth_probability gd (some mn) none
        = Except.ok (((gd.filter (fun g => decide (mn < g))).length : ℚ)
            / (gd.length : ℚ) * 100) := by
  have h0 : ¬ gd.length = 0 := length_ne_zero h
  refine ⟨?_, ?_, ?_⟩ <;>
    simp [growth_probability, h0, List.countP_eq_length_filter]

/-- Witness for C5 at the distribution `[0, 5, 10]` with bounds 1 and 7. -/
theorem growth_probability_modes_witness :
    growth_probability [(0 : ℚ), 5, 10] (some 1) (some 7) = Except.ok ((1 : ℚ) / 3 * 100)
  ∧ growth_probability [(0 : ℚ), 5, 10] none (some 7) = Except.ok ((2 : ℚ) / 3 * 100)
  ∧ growth_probability [(0 : ℚ), 5, 10] (some 1) none = Except.ok ((2 : ℚ) / 3 * 100) := by
  have hth := growth_probability_modes [(0 : ℚ), 5, 10] 1 7 (by simp)
  refine ⟨?_, ?_, ?_⟩
  · rw [hth.1]; norm_num
  · rw [hth.2.1]; norm_num
  · rw [hth.2.2]; norm_num

/-- C6 counterexample: on the empty distribution with both bounds absent, the
code raises the zero-trials error (`ZeroDivisionError`), not the
invalid-range error (the `TypeError` that the spec's `InvalidRangeError`
denotes), so the claim that both-bounds-absent always fails with
`InvalidRangeError` is false. -/
theorem growth_probability_noBounds_empty_err :
    growth_probability ([] : List ℚ) none none ≠ Except.error InvalidRangeError := by
  simp [growth_probability, InvalidRangeError]

/-- C6 amended: with both bounds absent, a *non-empty* distribution fails with
the invalid-range failure (Python `TypeError` on comparing `None`); every
call on a zero-trial distribution fails with the empty-distribution failure
(Python `ZeroDivisionError`), including when both bounds are absent. -/
theorem growth_probability_failure_modes (gd : List ℚ) (mn mx : Option ℚ) :
    (gd ≠ [] → growth_probability gd none none = Except.error InvalidRangeError)
  ∧ (gd = [] → growth_probability gd mn mx = Except.error EmptyDistributionError) := by
  constructor
  · intro h
    cases gd with
    | nil => exact absurd rfl h
    | cons a l => rfl
  · intro h
    subst h
    cases mn <;> cases mx <;> rfl

/-- Witness for the amended C6 at the distributions `[5]` and `[]`. -/
theorem growth_probability_failure_modes_witness :
    growth_probability [(5 : ℚ)] none none = Except.error InvalidRangeError
  ∧ growth_probability ([] : List ℚ) (some 0) none = Except.error EmptyDistributionError :=
  ⟨(growth_probability_failure_modes [(5 : ℚ)] none none).1 (by simp),
   (growth_probability_failure_modes [] (some 0) none).2 rfl⟩

/-- C7 counterexample: with exactly one price point (fewer than 2), the
builder does not fail: `pct_change` yields the single NaN entry, `pop(0)`
removes it, and the empty return list is returned successfully. -/
theorem get_yearly_returns_single_point :
    get_yearly_returns [(100 : ℚ)] = Except.ok [] := rfl

/-- C7 amended: the builder fails (with the `IndexError` that the spec's
`InsufficientDataError` denotes) only when zero price points are available;
with one or more points it succeeds, returning one fractional return per
adjacent pair of prices, first period dropped, in chronological order
(so exactly one point yields the empty return list). -/
theorem get_yearly_returns_spec (prices : List ℚ) :
    (prices = [] → get_yearly_returns prices = Except.error InsufficientDataError)
  ∧ (∀ p ps, prices = p :: ps →
      get_yearly_returns prices
        = Except.ok (List.zipWith (fun prev cur => (cur - prev) / prev) prices ps)) := by
  constructor
  · intro h; subst h; rfl
  · intro p ps h; subst h
    simp [get_yearly_returns, pct_changes_zipWith]

/-- Witness for the amended C7: prices `[100, 110, 99]` yield returns
`[0.10, -0.10]`. -/
theorem get_yearly_returns_spec_witness :
    get_yearly_returns [(100 : ℚ), 110, 99] = Except.ok [1 / 10, -(1 / 10)] := by
  have h := (get_yearly_returns_spec [(100 : ℚ), 110, 99]).2 100 [110, 99] rfl
  rw [h]
  norm_num

/-- C9: for every non-empty distribution and threshold `x`, the below-`x`
probability plus the above-`x` probability equals 100 minus
`100 * (number of elements exactly equal to x) / trials`, because both
single-bound comparisons are strict. -/
theorem growth_probability_below_above_split (gd : List ℚ) (x : ℚ) (h : gd ≠ []) :
    ∃ below above : ℚ,
      growth_probability gd none (some x) = Except.ok below
      ∧ growth_probability gd (some x) none = Except.ok above
      ∧ below + above
          = 100 - 100 * (gd.countP (fun g => decide (g = x)) : ℚ) / (gd.length : ℚ) := by
  have h0 : ¬ gd.length = 0 := length_ne_zero h
  refine ⟨(gd.countP (fun g => decide (g < x)) : ℚ) / (gd.length : ℚ) * 100,
          (gd.countP (fun g => decide (x < g)) : ℚ) / (gd.length : ℚ) * 100, ?_, ?_, ?_⟩
  · simp [growth_probability, h0]
  · simp [growth_probability, h0]
  · have key : ((gd.countP (fun g => decide (g < x)) : ℚ))
        + (gd.countP (fun g => decide (x < g)) : ℚ)
        + (gd.countP (fun g => decide (g = x)) : ℚ) = (gd.length : ℚ) := by
      exact_mod_cast congrArg (Nat.cast : ℕ → ℚ) (countP_lt_gt_eq gd x)
    have hn : (gd.length : ℚ) ≠ 0 := Nat.cast_ne_zero.mpr h0
    field_simp
    linarith [key]

/-- Witness for C9 at the distribution `[0, 5, 10]` with threshold 5. -/
theorem growth_probability_below_above_split_witness :
    ∃ below above : ℚ,
      growth_probability [(0 : ℚ), 5, 10] none (some 5) = Except.ok below
      ∧ growth_probability [(0 : ℚ), 5, 10] (some 5) none = Except.ok above
      ∧ below + above
          = 100 - 100 * (([(0 : ℚ), 5, 10].countP (fun g => decide (g = 5))) : ℚ)
              / (([(0 : ℚ), 5, 10] : List ℚ).length : ℚ) :=
  growth_probability_below_above_split [(0 : ℚ), 5, 10] 5 (by simp)

/-- C10: the reported outperformance probability is
`growth_probability(final_growths, benchmark_future_value, None)`: the
percentage of trials whose final growth percentage strictly exceeds the
benchmark's future *dollar* value `init * (1 + r) ^ years` (not the
benchmark's percentage growth). -/
theorem outperformance_probability_spec (gd : List ℚ) (init r : ℚ) (years : ℕ)
    (h : gd ≠ []) :
    outperformance_probability gd init r years
      = growth_probability gd (some (init * (1 + r) ^ years)) none
  ∧ outperformance_probability gd init r years
      = Except.ok (((gd.filter (fun g => decide (init * (1 + r) ^ years < g))).length : ℚ)
          / (gd.length : ℚ) * 100) := by
  have h0 : ¬ gd.length = 0 := length_ne_zero h
  constructor
  · rfl
  · simp [outperformance_probability, growth_probability, benchmark_future_value, h0,
      List.countP_eq_length_filter]

/-- Witness for C10: growths `[100, 300]`, initial 100, benchmark return 100%
over 1 year (future value 200): one of two trials exceeds 200, so 50%. -/
theorem outperformance_probability_spec_witness :
    outperformance_probability [(100 : ℚ), 300] 100 1 1 = Except.ok 50 := by
  have h := (outperformance_probability_spec [(100 : ℚ), 300] 100 1 1 (by simp)).2
  rw [h]
  norm_num

/-! ## Helper lemmas: SimulationEngine -/

lemma getD_mod_mem (l : List ℚ) (k : ℕ) (h : l ≠ []) : l.getD (k % l.length) 0 ∈ l := by
  have hl : 0 < l.length := List.length_pos.mpr h
  have hk : k % l.length < l.length := Nat.mod_lt _ hl
  rw [List.getD_eq_getElem l 0 hk]
  exact List.getElem_mem hk

lemma choice_ok (pool : List ℚ) (k : ℕ) (h : pool ≠ []) :
    choice pool k = Except.ok (pool.getD (k % pool.length) 0) := by
  cases pool with
  | nil => exact absurd rfl h
  | cons q qs => rfl

lemma drawnReturns_forall2 (f : ℕ → ℕ) :
    ∀ (P : List (ℚ × List ℚ)) (i : ℕ), (∀ a ∈ P, a.2 ≠ []) →
    List.Forall₂ (fun (r : ℚ) (a : ℚ × List ℚ) => r ∈ a.2) (drawnReturns f P i) P := by
  intro P
  induction P with
  | nil =>
    intro i h
    exact List.Forall₂.nil
  | cons a rest ih =>
    intro i h
    obtain ⟨w, pool⟩ := a
    refine List.Forall₂.cons ?_ (ih (i + 1) ?_)
    · exact getD_mod_mem pool (f i) (h (w, pool) (by simp))
    · intro b hb
      exact h b (by simp [hb])

lemma yearDeltaAux_ok (v : ℚ) (f : ℕ → ℕ) :
    ∀ (P : List (ℚ × List ℚ)) (i : ℕ) (acc : ℚ), (∀ a ∈ P, a.2 ≠ []) →
    yearDeltaAux v f P i acc
      = Except.ok (acc + (List.zipWith (fun w r => v * w * r) (P.map Prod.fst)
          (drawnReturns f P i)).sum) := by
  intro P
  induction P with
  | nil =>
    intro i acc h
    simp [yearDeltaAux, drawnReturns]
  | cons a rest ih =>
    intro i acc h
    obtain ⟨w, pool⟩ := a
    have hpool : pool ≠ [] := h (w, pool) (by simp)
    have hrest : ∀ b ∈ rest, b.2 ≠ [] := fun b hb => h b (by simp [hb])
    simp only [yearDeltaAux, choice_ok pool (f i) hpool, drawnReturns, List.map_cons,
      List.zipWith_cons_cons, List.sum_cons]
    rw [ih (i + 1) _ hrest, add_assoc]

lemma zipWith_factor_sum (v : ℚ) :
    ∀ (ws rs : List ℚ),
      (List.zipWith (fun w r => v * w * r) ws rs).sum
        = v * (List.zipWith (fun w r => w * r) ws rs).sum := by
  intro ws
  induction ws with
  | nil =>
    intro rs
    simp
  | cons w ws ih =>
    intro rs
    cases rs with
    | nil => simp
    | cons r rs =>
      simp only [List.zipWith_cons_cons, List.sum_cons, ih]
      ring

lemma simFrom_ok_length (P : List (ℚ × List ℚ)) (f : ℕ → ℕ → ℕ) :
    ∀ (n y : ℕ) (v : ℚ) (l : List ℚ), simFrom P f y v n = Except.ok l → l.length = n := by
  intro n
  induction n with
  | zero =>
    intro y v l h
    simp only [simFrom, Except.ok.injEq] at h
    subst h
    rfl
  | succ n ih =>
    intro y v l h
    simp only [simFrom] at h
    cases hd : yearDelta v P (f y) with
    | error e =>
      simp [hd] at h
    | ok d =>
      simp only [hd] at h
      cases hr : simFrom P f (y + 1) (v + d) n with
      | error e =>
        simp [hr] at h
      | ok rest =>
        simp only [hr, Except.ok.injEq] at h
        subst h
        simp [ih (y + 1) (v + d) rest hr]

lemma runTrial_ok_parts (init : ℚ) (P : List (ℚ × List ℚ)) (years : ℕ) (f : ℕ → ℕ → ℕ)
    (traj : List ℚ) (h : runTrial init P years f = Except.ok traj) :
    ∃ rest, simFrom P f 1 (yearZeroValue init P) years = Except.ok rest
      ∧ traj = yearZeroValue init P :: rest := by
  unfold runTrial at h
  cases hr : simFrom P f 1 (yearZeroValue init P) years with
  | error e =>
    rw [hr] at h
    simp at h
  | ok rest =>
    rw [hr] at h
    simp only [Except.ok.injEq] at h
    exact ⟨rest, rfl, h.symm⟩

lemma runTrial_ok_length (init : ℚ) (P : List (ℚ × List ℚ)) (years : ℕ) (f : ℕ → ℕ → ℕ)
    (traj : List ℚ) (h : runTrial init P years f = Except.ok traj) :
    traj.length = years + 1 := by
  obtain ⟨rest, hr, rfl⟩ := runTrial_ok_parts init P years f traj h
  simp [simFrom_ok_length P f years 1 _ rest hr]

lemma yearZeroValue_eq (init : ℚ) (P : List (ℚ × List ℚ)) :
    yearZeroValue init P = init * (P.map Prod.fst).sum := by
  have haux : ∀ (Q : List (ℚ × List ℚ)) (c : ℚ),
      Q.foldl (fun v a => v + init * a.1) c = c + init * (Q.map Prod.fst).sum := by
    intro Q
    induction Q with
    | nil =>
      intro c
      simp
    | cons a rest ih =>
      intro c
      rw [List.foldl_cons, ih, List.map_cons, List.sum_cons]
      ring
  simpa using haux P 0

lemma runSimAux_ok (init : ℚ) (P : List (ℚ × List ℚ)) (years : ℕ) (g : ℕ → ℕ → ℕ → ℕ) :
    ∀ (n t : ℕ) (acc m : List (List ℚ)),
      runSimAux init P years g t n acc = Except.ok m →
      m.length = acc.length + n
      ∧ ∀ traj ∈ m, traj ∈ acc ∨ ∃ t', runTrial init P years (g t') = Except.ok traj := by
  intro n
  induction n with
  | zero =>
    intro t acc m h
    simp only [runSimAux, Except.ok.injEq] at h
    subst h
    exact ⟨rfl, fun traj ht => Or.inl ht⟩
  | succ n ih =>
    intro t acc m h
    simp only [runSimAux] at h
    cases hr : runTrial init P years (g t) with
    | error e =>
      rw [hr] at h
      simp at h
    | ok traj =>
      rw [hr] at h
      obtain ⟨hlen, hmem⟩ := ih (t + 1) (acc ++ [traj]) m h
      constructor
      · simp only [List.length_append, List.length_singleton] at hlen
        omega
      · intro tr htr
        rcases hmem tr htr with hin | ⟨t', ht'⟩
        · rcases List.mem_append.mp hin with h1 | h2
          · exact Or.inl h1
          · have heq : tr = traj := List.mem_singleton.mp h2
            exact Or.inr ⟨t, by rw [heq]; exact hr⟩
        · exact Or.inr ⟨t', ht'⟩

lemma yearDeltaAux_empty_pool (v : ℚ) (f : ℕ → ℕ) :
    ∀ (P : List (ℚ × List ℚ)) (i : ℕ) (acc : ℚ), (∃ a ∈ P, a.2 = []) →
    yearDeltaAux v f P i acc = Except.error PyErr.indexError := by
  intro P
  induction P with
  | nil =>
    intro i acc h
    simp at h
  | cons a rest ih =>
    intro i acc h
    obtain ⟨w, pool⟩ := a
    by_cases hp : pool = []
    · subst hp
      rfl
    · have hrest : ∃ b ∈ rest, b.2 = [] := by
        rcases h with ⟨b, hb, hb2⟩
        rcases List.mem_cons.mp hb with rfl | hbr
        · exact absurd hb2 hp
        · exact ⟨b, hbr, hb2⟩
      simp only [yearDeltaAux, choice_ok pool (f i) hp]
      exact ih (i + 1) _ hrest

lemma simFrom_empty_pool (P : List (ℚ × List ℚ)) (f : ℕ → ℕ → ℕ)
    (hP : ∃ a ∈ P, a.2 = []) (y : ℕ) (v : ℚ) (n : ℕ) (hn : 1 ≤ n) :
    simFrom P f y v n = Except.error PyErr.indexError := by
  cases n with
  | zero => omega
  | succ n =>
    simp only [simFrom, yearDelta, yearDeltaAux_empty_pool v (f y) P 0 0 hP]

/-! ## Claim theorems: SimulationEngine -/

/-- C1: in every simulated year `y ≥ 1`, when every pool is non-empty the
asset loop draws one return per asset from that asset's own pool, and the
new portfolio value is `old + sum of old * weight * return`, i.e.
`old * (1 + sum of weight * return)`: each asset's share is recomputed as
`old * weight` from the total (annual rebalancing), never carried forward
from the asset's own prior growth. -/
theorem sim_year_rebalancing (v : ℚ) (P : List (ℚ × List ℚ)) (f : ℕ → ℕ)
    (hP : ∀ a ∈ P, a.2 ≠ []) :
    List.Forall₂ (fun (r : ℚ) (a : ℚ × List ℚ) => r ∈ a.2) (drawnReturns f P 0) P
  ∧ yearDelta v P f
      = Except.ok ((List.zipWith (fun w r => v * w * r) (P.map Prod.fst)
          (drawnReturns f P 0)).sum)
  ∧ v + (List.zipWith (fun w r => v * w * r) (P.map Prod.fst) (drawnReturns f P 0)).sum
      = v * (1 + (List.zipWith (fun w r => w * r) (P.map Prod.fst)
          (drawnReturns f P 0)).sum) := by
  refine ⟨drawnReturns_forall2 f P 0 hP, ?_, ?_⟩
  · simpa [yearDelta] using yearDeltaAux_ok v f P 0 0 hP
  · rw [zipWith_factor_sum]
    ring

/-- Witness for C1: one asset of weight 1 with pool `[2]` at value 100. -/
theorem sim_year_rebalancing_witness :
    List.Forall₂ (fun (r : ℚ) (a : ℚ × List ℚ) => r ∈ a.2)
      (drawnReturns (fun _ => 0) [((1 : ℚ), [(2 : ℚ)])] 0) [((1 : ℚ), [(2 : ℚ)])]
  ∧ yearDelta 100 [((1 : ℚ), [(2 : ℚ)])] (fun _ => 0)
      = Except.ok ((List.zipWith (fun w r => 100 * w * r)
          ([((1 : ℚ), [(2 : ℚ)])].map Prod.fst)
          (drawnReturns (fun _ => 0) [((1 : ℚ), [(2 : ℚ)])] 0)).sum)
  ∧ 100 + (List.zipWith (fun w r => 100 * w * r) ([((1 : ℚ), [(2 : ℚ)])].map Prod.fst)
        (drawnReturns (fun _ => 0) [((1 : ℚ), [(2 : ℚ)])] 0)).sum
      = 100 * (1 + (List.zipWith (fun w r => w * r) ([((1 : ℚ), [(2 : ℚ)])].map Prod.fst)
          (drawnReturns (fun _ => 0) [((1 : ℚ), [(2 : ℚ)])] 0)).sum) :=
  sim_year_rebalancing 100 [((1 : ℚ), [(2 : ℚ)])] (fun _ => 0) (by simp)

/-- C2: when the simulation succeeds, the trial matrix contains exactly
`trials` trajectories and every trajectory has length `years + 1`. -/
theorem runSim_shape (init : ℚ) (P : List (ℚ × List ℚ)) (years trials : ℕ)
    (g : ℕ → ℕ → ℕ → ℕ) (m : List (List ℚ))
    (h : runSim init P years trials g = Except.ok m) :
    m.length = trials ∧ ∀ traj ∈ m, traj.length = years + 1 := by
  obtain ⟨hlen, hmem⟩ := runSimAux_ok init P years g trials 0 [] m h
  refine ⟨by simpa using hlen, ?_⟩
  intro traj htraj
  rcases hmem traj htraj with hin | ⟨t', ht'⟩
  · simp at hin
  · exact runTrial_ok_length init P years (g t') traj ht'

/-- Witness for C2: two trials over one year with one asset of weight 1 and
pool `[1]` yield a 2-by-2 matrix. -/
theorem runSim_shape_witness :
    ([[(100 : ℚ), 200], [(100 : ℚ), 200]] : List (List ℚ)).length = 2
  ∧ ∀ traj ∈ ([[(100 : ℚ), 200], [(100 : ℚ), 200]] : List (List ℚ)), traj.length = 1 + 1 :=
  runSim_shape 100 [((1 : ℚ), [(1 : ℚ)])] 1 2 (fun _ _ _ => 0) _
    (by norm_num [runSim, runSimAux, runTrial, simFrom, yearDelta, yearDeltaAux, choice,
      yearZeroValue])

/-- C3: for every portfolio whose weights sum to 1 and every trial, the
trajectory value at year 0 equals the initial investment exactly. -/
theorem trajectory_starts_at_initial (init : ℚ) (P : List (ℚ × List ℚ))
    (years trials : ℕ) (g : ℕ → ℕ → ℕ → ℕ) (m : List (List ℚ))
    (hw : (P.map Prod.fst).sum = 1)
    (h : runSim init P years trials g = Except.ok m) :
    ∀ traj ∈ m, traj.head? = some init := by
  obtain ⟨-, hmem⟩ := runSimAux_ok init P years g trials 0 [] m h
  intro traj htraj
  rcases hmem traj htraj with hin | ⟨t', ht'⟩
  · simp at hin
  · obtain ⟨rest, -, rfl⟩ := runTrial_ok_parts init P years (g t') traj ht'
    rw [List.head?_cons, yearZeroValue_eq, hw, mul_one]

/-- Witness for C3: two assets of weight 1/2 each, zero-return pools, one
trial of zero years; the single trajectory starts at the initial 100. -/
theorem trajectory_starts_at_initial_witness :
    ([(100 : ℚ)] : List ℚ).head? = some (100 : ℚ) :=
  trajectory_starts_at_initial 100 [((1 : ℚ) / 2, [(0 : ℚ)]), ((1 : ℚ) / 2, [(0 : ℚ)])]
    0 1 (fun _ _ _ => 0) [[(100 : ℚ)]] (by norm_num)
    (by norm_num [runSim, runSimAux, runTrial, simFrom, yearZeroValue])
    [(100 : ℚ)] (by simp)

/-- C4: the final-growth distribution has one element per trial, and the
code's expression `last / init * 100 - 100` equals the spec's
`(last / init - 1) * 100` for every trajectory. -/
theorem final_growths_spec (init : ℚ) (P : List (ℚ × List ℚ)) (years trials : ℕ)
    (g : ℕ → ℕ → ℕ → ℕ) (data : List (List ℚ))
    (h : runSim init P years trials g = Except.ok data) :
    (final_growths data init).length = trials
  ∧ final_growths data init
      = data.map (fun traj => (traj.getLastD 0 / init - 1) * 100) := by
  constructor
  · have hlen := (runSimAux_ok init P years g trials 0 [] data h).1
    simpa [final_growths] using hlen
  · have hfun : (fun sim_data : List ℚ => sim_data.getLastD 0 / init * 100 - 100)
        = fun traj : List ℚ => (traj.getLastD 0 / init - 1) * 100 := by
      funext t
      ring
    rw [final_growths, hfun]

/-- Witness for C4: one trial, one year, one asset of weight 1 with pool
`[1]` (a +100% return): the matrix is `[[100, 200]]`. -/
theorem final_growths_spec_witness :
    (final_growths [[(100 : ℚ), 200]] 100).length = 1
  ∧ final_growths [[(100 : ℚ), 200]] 100
      = [[(100 : ℚ), 200]].map (fun traj => (traj.getLastD 0 / 100 - 1) * 100) :=
  final_growths_spec 100 [((1 : ℚ), [(1 : ℚ)])] 1 1 (fun _ _ _ => 0) _
    (by norm_num [runSim, runSimAux, runTrial, simFrom, yearDelta, yearDeltaAux, choice,
      yearZeroValue])

/-- C8 counterexample: an asset with an empty return pool does not make the
simulation fail when zero years are simulated: with one trial over zero
years, the run succeeds and returns a full one-trajectory matrix, because
year 0 performs no draw. -/
theorem runSim_emptyPool_yearsZero_ok :
    runSim 100 [((1 : ℚ), ([] : List ℚ))] 0 1 (fun _ _ _ => 0)
      = Except.ok [[(100 : ℚ)]] := by
  norm_num [runSim, runSimAux, runTrial, simFrom, yearZeroValue]

/-- C8 amended: if any pool is empty and at least one year and one trial are
requested, the simulation fails with the empty-pool failure (the
`IndexError` from `random.choice([])`) during the first trial's first
simulated year — not before the trial begins — and the partial matrix
observable at failure is empty because no trajectory has been completed;
with zero years (or zero trials) no draw occurs and the run succeeds. -/
theorem runSim_emptyPool_failure (init : ℚ) (P : List (ℚ × List ℚ))
    (years trials : ℕ) (g : ℕ → ℕ → ℕ → ℕ)
    (hP : ∃ a ∈ P, a.2 = []) (hy : 1 ≤ years) (ht : 1 ≤ trials) :
    runSim init P years trials g = Except.error (EmptyReturnPoolError, []) := by
  cases trials with
  | zero => omega
  | succ n =>
    have htrial : runTrial init P years (g 0) = Except.error PyErr.indexError := by
      unfold runTrial
      rw [simFrom_empty_pool P (g 0) hP 1 _ years hy]
    simp only [runSim, runSimAux, htrial]
    rfl

/-- Witness for the amended C8: weight-1 asset with empty pool, one year,
one trial. -/
theorem runSim_emptyPool_failure_witness :
    runSim 100 [((1 : ℚ), ([] : List ℚ))] 1 1 (fun _ _ _ => 0)
      = Except.error (EmptyReturnPoolError, []) :=
  runSim_emptyPool_failure 100 [((1 : ℚ), ([] : List ℚ))] 1 1 (fun _ _ _ => 0)
    ⟨((1 : ℚ), ([] : List ℚ)), by simp, rfl⟩ (by norm_num) (by norm_num)

end PortfolioMC
